import Mathlib

/-!
Shallow embedding of the gnome-dbus-api settings bridge (src/src/handlers.rs)
and of the configuration-store collaborator it consumes, together with
theorems settling the specification's claims about it.

Bus calls and store accesses are modelled by an explicit `Outcome` type that
distinguishes a successful reply, a typed error returned to the caller
(Rust `Err`), and a process abort (Rust `panic`, produced by `unwrap`).
Dynamically typed bus payloads are a tagged union `DynValue`; the f64 wire
codes of the extension state field are modelled by exact rationals, since the
source compares them for exact equality against small integer literals.
-/

/-- Unified error taxonomy for backend failures (spec section 7). -/
inductive BusError where
  | transportUnavailable
  | targetNotFound
  | decodeFailure
  | remoteRejected
deriving DecidableEq, Repr

/-- Result of running an operation: a value, a typed error returned to the
caller, or a process abort (Rust panic). -/
inductive Outcome (α : Type) where
  | ok (a : α)
  | error (e : BusError)
  | panic
deriving DecidableEq, Repr

/-- Sequencing: errors and panics short-circuit (Rust `?` on `Err`, or a panic
unwinding through the rest of the function). -/
def Outcome.bind {α β : Type} : Outcome α → (α → Outcome β) → Outcome β
  | .ok a, f => f a
  | .error e, _ => .error e
  | .panic, _ => .panic

/-- Rust `Result::unwrap`: keep the value, turn a returned error into a panic. -/
def unwrapO {α : Type} : Outcome α → Outcome α
  | .ok a => .ok a
  | .error _ => .panic
  | .panic => .panic

/-- Rust `Option::unwrap`: panic on `None`. -/
def optUnwrap {α : Type} : Option α → Outcome α
  | some a => .ok a
  | none => .panic

/-- Rust `?` on a plain `Result`: propagate the error as a typed error. -/
def ofResult {α : Type} : Except BusError α → Outcome α
  | .ok a => .ok a
  | .error e => .error e

/-- Rust `Result::unwrap` on a plain `Result`: panic on `Err`. -/
def exceptUnwrap {α : Type} : Except BusError α → Outcome α
  | .ok a => .ok a
  | .error _ => .panic

/-- Dynamically typed bus value (`zvariant::OwnedValue`): the decoder only
distinguishes strings, f64 numbers (modelled as exact rationals) and
everything else. -/
inductive DynValue where
  | str (s : String)
  | num (q : ℚ)
  | other
deriving DecidableEq, Repr

/-- `TryInto<String>` on a dynamic value: succeeds exactly on strings. -/
def tryIntoString : DynValue → Option String
  | .str s => some s
  | _ => none

/-- `TryInto<f64>` on a dynamic value: succeeds exactly on numbers. -/
def tryIntoF64 : DynValue → Option ℚ
  | .num q => some q
  | _ => none

/-- Power profile enumeration (`PowerProfile` in handlers.rs). -/
inductive PowerProfile where
  | PowerSaver
  | Balanced
  | Performance
deriving DecidableEq, Repr

/-- `PowerProfile::as_str`: encode a profile as its canonical wire string. -/
def PowerProfile.as_str : PowerProfile → String
  | .PowerSaver => "power-saver"
  | .Balanced => "balanced"
  | .Performance => "performance"

/-- `PowerProfile::from`: decode a wire string, any unrecognized string
falling back to `Balanced`. -/
def PowerProfile.fromStr (profile : String) : PowerProfile :=
  if profile = "power-saver" then .PowerSaver
  else if profile = "balanced" then .Balanced
  else if profile = "performance" then .Performance
  else .Balanced

/-- Extension lifecycle states (`ListExtensionState` in handlers.rs). -/
inductive ListExtensionState where
  | ENABLED
  | DISABLED
  | ERROR
  | OUT_OF_DATE
  | DOWNLOADING
  | INITIALIZED
  | UNINSTALLED
deriving DecidableEq, Repr

/-- The `match state_number` arms of `list_extensions`: exact comparison of
the f64 code against 1.0 .. 6.0 and 99.0, any other value giving
`UNINSTALLED`. -/
def stateFromNumber (q : ℚ) : ListExtensionState :=
  if q = 1 then .ENABLED
  else if q = 2 then .DISABLED
  else if q = 3 then .ERROR
  else if q = 4 then .OUT_OF_DATE
  else if q = 5 then .DOWNLOADING
  else if q = 6 then .INITIALIZED
  else if q = 99 then .UNINSTALLED
  else .UNINSTALLED

/-- One decoded extension record (`ListExtension` in handlers.rs). -/
structure ListExtension where
  uuid : String
  name : String
  description : String
  state : ListExtensionState
  version : String
  url : String
deriving DecidableEq, Repr

/-- Field map of one raw extension entry: field name to dynamic value. -/
def Fields : Type := List (String × DynValue)

/-- Decode one raw extension entry, mirroring the body of the
`for extension in list` loop of `list_extensions`: required fields `name`,
`description`, `state`, `url` are looked up with `unwrap` (panic when absent)
and converted with `try_into().unwrap()` (panic when ill-typed); the optional
`version` field defaults to the empty string when absent or ill-typed. -/
def decodeExtension (uuid : String) (f : Fields) : Outcome ListExtension :=
  (optUnwrap (List.lookup "name" f)).bind fun nameV =>
  (optUnwrap (tryIntoString nameV)).bind fun name =>
  (optUnwrap (List.lookup "description" f)).bind fun descV =>
  (optUnwrap (tryIntoString descV)).bind fun description =>
  let version : String :=
    match List.lookup "version" f with
    | some v => (tryIntoString v).getD ""
    | none => ""
  (optUnwrap (List.lookup "state" f)).bind fun stateV =>
  (optUnwrap (tryIntoF64 stateV)).bind fun q =>
  (optUnwrap (List.lookup "url" f)).bind fun urlV =>
  (optUnwrap (tryIntoString urlV)).bind fun url =>
  .ok ⟨uuid, name, description, stateFromNumber q, version, url⟩

/-- Decode a whole raw directory reply in iteration order, mirroring the loop
of `list_extensions`: a panic while decoding any entry aborts the whole
listing. -/
def decodeExtensions : List (String × Fields) → Outcome (List ListExtension)
  | [] => .ok []
  | (uuid, f) :: rest =>
    (decodeExtension uuid f).bind fun item =>
    (decodeExtensions rest).bind fun items =>
    .ok (item :: items)

/-- `ExtensionsProxy::list_extensions`: `unwrap` the bus reply, then decode. -/
def list_extensions (reply : Outcome (List (String × Fields))) :
    Outcome (List ListExtension) :=
  (unwrapO reply).bind decodeExtensions

/-! ## Façade backends

Each façade obtains a fresh connection and proxy per call, then performs one
operation. The external bus services are modelled by structures holding the
outcome of each round trip; `unwrap` sites in the source become `unwrapO`,
`?` sites become plain `bind`. -/

/-- Backend seen by the `power` façade: system connection, proxy creation,
and the `ActiveProfile` property read. -/
structure PowerBackend where
  connection : Outcome Unit
  proxyNew : Outcome Unit
  activeProfile : Outcome String
deriving DecidableEq

/-- `power::get_power_profile`: unwrap connection, proxy and property read,
then decode the profile string. -/
def power.get_power_profile (b : PowerBackend) : Outcome PowerProfile :=
  (unwrapO b.connection).bind fun _ =>
  (unwrapO b.proxyNew).bind fun _ =>
  (unwrapO b.activeProfile).bind fun s =>
  .ok (PowerProfile.fromStr s)

/-- A bus property write as forwarded to the backend. -/
structure BusPropertyWrite where
  iface : String
  prop : String
  value : ℤ
deriving DecidableEq, Repr

/-- Backend seen by the `screen` façade: session connection and proxy
creation. -/
structure ScreenBackend where
  connection : Outcome Unit
  proxyNew : Outcome Unit
deriving DecidableEq

/-- `screen::set_brightness`: unwrap connection and proxy, then forward the
signed brightness value unchanged to the `Brightness` property. -/
def screen.set_brightness (b : ScreenBackend) (brightness : ℤ) :
    Outcome BusPropertyWrite :=
  (unwrapO b.connection).bind fun _ =>
  (unwrapO b.proxyNew).bind fun _ =>
  .ok ⟨"org.gnome.SettingsDaemon.Power.Screen", "Brightness", brightness⟩

/-- Backend seen by the `extensions` façade: session connection, proxy
creation, and the per-uuid replies of the extension method calls. -/
structure ExtBackend where
  connection : Outcome Unit
  proxyNew : Outcome Unit
  listReply : Outcome (List (String × Fields))
  launchPrefsReply : String → Outcome Unit
  enableReply : String → Outcome Bool
  disableReply : String → Outcome Bool
  uninstallReply : String → Outcome Bool

/-- `ExtensionsProxy::launch_extension_prefs`: the bus reply is discarded with
`unwrap_or_else(|_| ())`, and the method always returns `Ok(())`. -/
def launch_extension_prefs (b : ExtBackend) (uuid : String) : Outcome Unit :=
  let _reply := b.launchPrefsReply uuid
  .ok ()

/-- `extensions::open_extension_preferences`: unwrap connection and proxy,
then unwrap `launch_extension_prefs` (which never fails). -/
def extensions.open_extension_preferences (b : ExtBackend) (uuid : String) :
    Outcome Unit :=
  (unwrapO b.connection).bind fun _ =>
  (unwrapO b.proxyNew).bind fun _ =>
  unwrapO (launch_extension_prefs b uuid)

/-- `extensions::enable_extension`: unwrap connection, proxy and the bus
call; the boolean reply value is discarded. -/
def extensions.enable_extension (b : ExtBackend) (uuid : String) : Outcome Unit :=
  (unwrapO b.connection).bind fun _ =>
  (unwrapO b.proxyNew).bind fun _ =>
  (unwrapO (b.enableReply uuid)).bind fun _ =>
  .ok ()

/-- `extensions::get_extensions`: unwrap connection and proxy, then run the
proxy's `list_extensions`. -/
def extensions.get_extensions (b : ExtBackend) : Outcome (List ListExtension) :=
  (unwrapO b.connection).bind fun _ =>
  (unwrapO b.proxyNew).bind fun _ =>
  list_extensions b.listReply

/-- Backend seen by the `battery` façade: system connection, UPower proxy,
device enumeration, per-path device proxy creation and per-device
rechargeable query. -/
structure BatteryBackend where
  connection : Outcome Unit
  upowerNew : Outcome Unit
  enumerateDevices : Outcome (List String)
  deviceProxyNew : String → Outcome String
  isRechargeable : String → Outcome Bool

/-- The `for device in devices` loop of `get_devices_battery`: build a device
proxy, query its rechargeable flag, keep it when the flag is true; any
failure propagates as a typed error (the source uses `?`, not `unwrap`). -/
def battery.collectRechargeable (b : BatteryBackend) :
    List String → Outcome (List String)
  | [] => .ok []
  | p :: ps =>
    (b.deviceProxyNew p).bind fun dev =>
    (b.isRechargeable dev).bind fun r =>
    (battery.collectRechargeable b ps).bind fun rest =>
    .ok (if r then dev :: rest else rest)

/-- `battery::get_devices_battery`: connection, UPower proxy and enumeration
via `?`, then the filtering loop. -/
def battery.get_devices_battery (b : BatteryBackend) : Outcome (List String) :=
  b.connection.bind fun _ =>
  b.upowerNew.bind fun _ =>
  b.enumerateDevices.bind fun paths =>
  battery.collectRechargeable b paths

/-! ## Configuration store (dconf) and typed parse/format

The `crate::dconf` module is not part of the sources under review; it is
modelled from the spec as a string store keyed by (schema, key). -/

/-- Modelled from the spec: the state of the external configuration store,
a partial map from (schema, key) to the stored string. -/
def Store : Type := String × String → Option String

/-- Modelled from the spec: `crate::dconf::get` — fetch the raw stored string
at (schema, key); a key the backend does not recognize is a lookup error. -/
def dconf.get (st : Store) (schema key : String) : Except BusError String :=
  match st (schema, key) with
  | some v => .ok v
  | none => .error .targetNotFound

/-- Modelled from the spec: `crate::dconf::set` — write a string value at
(schema, key); the store returns the last string written on later reads. -/
def dconf.set (st : Store) (schema key value : String) : Except BusError Store :=
  .ok (fun p => if p = (schema, key) then some value else st p)

/-- Rust `bool::from_str` (used by `parse::<bool>()`): exactly the strings
"true" and "false" parse. -/
def parseBool (s : String) : Option Bool :=
  if s = "true" then some true
  else if s = "false" then some false
  else none

/-- Rust `bool::to_string`. -/
def boolToString : Bool → String
  | true => "true"
  | false => "false"

/-- One character of a decimal number: ASCII digits only. -/
def charToDigit (c : Char) : Option ℕ :=
  if 48 ≤ c.toNat ∧ c.toNat ≤ 57 then some (c.toNat - 48) else none

/-- Convert every character of a candidate digit string, most significant
digit first; any non-digit character fails the whole parse. -/
def parseDigits : List Char → Option (List ℕ)
  | [] => some []
  | c :: cs =>
    match charToDigit c, parseDigits cs with
    | some d, some ds => some (d :: ds)
    | _, _ => none

/-- Rust unsigned integer parsing accepts one optional leading plus sign. -/
def stripLeadingPlus : List Char → List Char
  | [] => []
  | c :: cs => if c = '+' then cs else c :: cs

/-- Rust `u32::from_str` (used by `parse::<u32>()`): an optional leading '+',
then one or more ASCII digits, rejecting values that overflow 32 bits. -/
def parseU32 (s : String) : Option ℕ :=
  let cs := stripLeadingPlus s.data
  if cs.isEmpty then none
  else
    match parseDigits cs with
    | none => none
    | some ds =>
      let v := Nat.ofDigits 10 ds.reverse
      if v < 2 ^ 32 then some v else none

/-- Rust `u32::to_string`: decimal digits, no sign, no leading zeros,
"0" for zero. -/
def natDecimalString (n : ℕ) : String :=
  if n = 0 then "0"
  else ⟨(Nat.digits 10 n).reverse.map fun d => Char.ofNat (48 + d)⟩

/-- `nightlight::set_nightlight_active`: format the boolean and `unwrap` the
store write. -/
def nightlight.set_nightlight_active (st : Store) (active : Bool) : Outcome Store :=
  exceptUnwrap (dconf.set st "org.gnome.settings-daemon.plugins.color"
    "night-light-enabled" (boolToString active))

/-- `nightlight::get_nightlight_active`: `unwrap` the store read, then
`unwrap` the boolean parse. -/
def nightlight.get_nightlight_active (st : Store) : Outcome Bool :=
  (exceptUnwrap (dconf.get st "org.gnome.settings-daemon.plugins.color"
    "night-light-enabled")).bind fun s =>
  optUnwrap (parseBool s)

/-- `nightlight::set_temperature`: format the unsigned value and `unwrap` the
store write. -/
def nightlight.set_temperature (st : Store) (t : ℕ) : Outcome Store :=
  exceptUnwrap (dconf.set st "org.gnome.settings-daemon.plugins.color"
    "night-light-temperature" (natDecimalString t))

/-- `nightlight::get_temperature`: `unwrap` the store read, then `unwrap` the
u32 parse. -/
def nightlight.get_temperature (st : Store) : Outcome ℕ :=
  (exceptUnwrap (dconf.get st "org.gnome.settings-daemon.plugins.color"
    "night-light-temperature")).bind fun s =>
  optUnwrap (parseU32 s)

/-- `interface::set_cursor_size`: format the unsigned value, propagating a
store error as a typed error (the source returns `Result`). -/
def interface.set_cursor_size (st : Store) (size : ℕ) : Outcome Store :=
  ofResult (dconf.set st "org.gnome.desktop.interface" "cursor-size"
    (natDecimalString size))

/-- `interface::get_cursor_size`: propagate a store error via `?`, then
`unwrap` the u32 parse. -/
def interface.get_cursor_size (st : Store) : Outcome ℕ :=
  (ofResult (dconf.get st "org.gnome.desktop.interface" "cursor-size")).bind fun s =>
  optUnwrap (parseU32 s)

/-! ## Helper lemmas -/

lemma Outcome.bind_ok {α β : Type} (a : α) (f : α → Outcome β) :
    (Outcome.ok a).bind f = f a := rfl

lemma Outcome.bind_error {α β : Type} (e : BusError) (f : α → Outcome β) :
    (Outcome.error e).bind f = .error e := rfl

lemma Outcome.bind_panic {α β : Type} (f : α → Outcome β) :
    (Outcome.panic).bind f = .panic := rfl

lemma optUnwrap_some {α : Type} (a : α) : optUnwrap (some a) = .ok a := rfl

lemma optUnwrap_none {α : Type} : (optUnwrap none : Outcome α) = .panic := rfl

lemma charToDigit_digitChar {d : ℕ} (hd : d < 10) :
    charToDigit (Char.ofNat (48 + d)) = some d := by
  interval_cases d <;> decide

lemma parseDigits_map {ds : List ℕ} (h : ∀ d ∈ ds, d < 10) :
    parseDigits (ds.map fun d => Char.ofNat (48 + d)) = some ds := by
  induction ds with
  | nil => rfl
  | cons d ds ih =>
    simp only [List.map_cons, parseDigits]
    rw [charToDigit_digitChar (h d (by simp)),
      ih (fun x hx => h x (by simp [hx]))]

lemma parseBool_boolToString (b : Bool) : parseBool (boolToString b) = some b := by
  cases b <;> rfl

lemma parseU32_natDecimalString {n : ℕ} (hn : n < 2 ^ 32) :
    parseU32 (natDecimalString n) = some n := by
  rcases Nat.eq_zero_or_pos n with h0 | hpos
  · subst h0; rfl
  · have hne : n ≠ 0 := hpos.ne'
    have hlt : ∀ d ∈ (Nat.digits 10 n).reverse, d < 10 := fun d hd =>
      Nat.digits_lt_base (by norm_num) (List.mem_reverse.mp hd)
    rcases hrev : (Nat.digits 10 n).reverse with _ | ⟨d, ds⟩
    · exact absurd (List.reverse_eq_nil_iff.mp hrev)
        (Nat.digits_ne_nil_iff_ne_zero.mpr hne)
    · have hd10 : d < 10 := hlt d (by rw [hrev]; exact List.mem_cons_self d ds)
      have hplus : ¬ Char.ofNat (48 + d) = '+' := by
        intro hEq
        have hcd := charToDigit_digitChar hd10
        rw [hEq] at hcd
        have hnone : charToDigit '+' = none := by decide
        rw [hnone] at hcd
        exact Option.noConfusion hcd
      have hstr : natDecimalString n =
          ⟨(d :: ds).map fun k => Char.ofNat (48 + k)⟩ := by
        rw [natDecimalString, if_neg hne, hrev]
      have hall : ∀ k ∈ d :: ds, k < 10 := hrev ▸ hlt
      have hpd := parseDigits_map hall
      have hrevrev : (d :: ds).reverse = Nat.digits 10 n := by
        rw [← hrev, List.reverse_reverse]
      rw [hstr]
      simp only [parseU32, List.map_cons, stripLeadingPlus, if_neg hplus,
        List.isEmpty_cons, Bool.false_eq_true, if_false]
      simp only [List.map_cons] at hpd
      rw [hpd]
      show (if Nat.ofDigits 10 (d :: ds).reverse < 2 ^ 32 then
          some (Nat.ofDigits 10 (d :: ds).reverse) else none) = some n
      rw [hrevrev, Nat.ofDigits_digits, if_pos hn]

lemma decodeExtension_ok_or_panic (uuid : String) (f : Fields) :
    decodeExtension uuid f = .panic ∨ ∃ x, decodeExtension uuid f = .ok x := by
  unfold decodeExtension
  rcases h1 : List.lookup "name" f with _ | nv
  · left; rfl
  rcases h2 : tryIntoString nv with _ | nm
  · left
    simp only [optUnwrap_some, optUnwrap_none, Outcome.bind_ok, Outcome.bind_panic, h2]
  rcases h3 : List.lookup "description" f with _ | dv
  · left
    simp only [optUnwrap_some, optUnwrap_none, Outcome.bind_ok, Outcome.bind_panic, h2]
  rcases h4 : tryIntoString dv with _ | ds
  · left
    simp only [optUnwrap_some, optUnwrap_none, Outcome.bind_ok, Outcome.bind_panic, h2, h4]
  rcases h5 : List.lookup "state" f with _ | sv
  · left
    simp only [optUnwrap_some, optUnwrap_none, Outcome.bind_ok, Outcome.bind_panic, h2, h4]
  rcases h6 : tryIntoF64 sv with _ | q
  · left
    simp only [optUnwrap_some, optUnwrap_none, Outcome.bind_ok, Outcome.bind_panic, h2, h4, h6]
  rcases h7 : List.lookup "url" f with _ | uv
  · left
    simp only [optUnwrap_some, optUnwrap_none, Outcome.bind_ok, Outcome.bind_panic, h2, h4, h6]
  rcases h8 : tryIntoString uv with _ | u
  · left
    simp only [optUnwrap_some, optUnwrap_none, Outcome.bind_ok, Outcome.bind_panic,
      h2, h4, h6, h8]
  right
  simp only [optUnwrap_some, optUnwrap_none, Outcome.bind_ok, Outcome.bind_panic,
    h2, h4, h6, h8]
  exact ⟨_, rfl⟩

lemma decodeExtensions_append_panic (pre : List (String × Fields)) (uuid : String)
    (f : Fields) (post : List (String × Fields))
    (h : List.lookup "name" f = none) :
    decodeExtensions (pre ++ (uuid, f) :: post) = .panic := by
  induction pre with
  | nil =>
    have hpanic : decodeExtension uuid f = .panic := by
      unfold decodeExtension
      rw [h]
      rfl
    rw [List.nil_append]
    have hrec : decodeExtensions ((uuid, f) :: post) =
        (decodeExtension uuid f).bind fun item =>
        (decodeExtensions post).bind fun items =>
        .ok (item :: items) := rfl
    rw [hrec, hpanic, Outcome.bind_panic]
  | cons e pre ih =>
    obtain ⟨u2, f2⟩ := e
    rw [List.cons_append]
    have hrec : decodeExtensions ((u2, f2) :: (pre ++ (uuid, f) :: post)) =
        (decodeExtension u2 f2).bind fun item =>
        (decodeExtensions (pre ++ (uuid, f) :: post)).bind fun items =>
        .ok (item :: items) := rfl
    rw [hrec]
    rcases decodeExtension_ok_or_panic u2 f2 with hp | ⟨x, hx⟩
    · rw [hp, Outcome.bind_panic]
    · rw [hx, Outcome.bind_ok]
      simp only [ih, Outcome.bind_panic]

lemma collectRechargeable_ok (b : BatteryBackend) (paths : List String)
    (f : String → String) (g : String → Bool)
    (hp : ∀ p ∈ paths, b.deviceProxyNew p = .ok (f p))
    (hr : ∀ p ∈ paths, b.isRechargeable (f p) = .ok (g p)) :
    battery.collectRechargeable b paths = .ok ((paths.filter g).map f) := by
  induction paths with
  | nil => rfl
  | cons p ps ih =>
    have hrec : battery.collectRechargeable b (p :: ps) =
        (b.deviceProxyNew p).bind fun dev =>
        (b.isRechargeable dev).bind fun r =>
        (battery.collectRechargeable b ps).bind fun rest =>
        .ok (if r then dev :: rest else rest) := rfl
    rw [hrec, hp p (List.mem_cons_self p ps)]
    simp only [Outcome.bind_ok]
    rw [hr p (List.mem_cons_self p ps)]
    simp only [Outcome.bind_ok]
    rw [ih (fun q hq => hp q (List.mem_cons_of_mem p hq))
      (fun q hq => hr q (List.mem_cons_of_mem p hq))]
    simp only [Outcome.bind_ok, List.filter_cons]
    by_cases hg : g p = true
    · simp [hg]
    · simp [hg]

lemma collectRechargeable_error (b : BatteryBackend) (pre post : List String)
    (p : String) (e : BusError)
    (hpre : ∀ q ∈ pre, ∃ d r, b.deviceProxyNew q = .ok d ∧ b.isRechargeable d = .ok r)
    (hfail : b.deviceProxyNew p = .error e ∨
      ∃ d, b.deviceProxyNew p = .ok d ∧ b.isRechargeable d = .error e) :
    battery.collectRechargeable b (pre ++ p :: post) = .error e := by
  induction pre with
  | nil =>
    rw [List.nil_append]
    have hrec : battery.collectRechargeable b (p :: post) =
        (b.deviceProxyNew p).bind fun dev =>
        (b.isRechargeable dev).bind fun r =>
        (battery.collectRechargeable b post).bind fun rest =>
        .ok (if r then dev :: rest else rest) := rfl
    rw [hrec]
    rcases hfail with hd | ⟨d, hd, hrc⟩
    · rw [hd, Outcome.bind_error]
    · rw [hd]
      simp only [Outcome.bind_ok]
      rw [hrc, Outcome.bind_error]
  | cons q pre ih =>
    obtain ⟨d, r, hd, hrc⟩ := hpre q (List.mem_cons_self q pre)
    rw [List.cons_append]
    have hrec : battery.collectRechargeable b (q :: (pre ++ p :: post)) =
        (b.deviceProxyNew q).bind fun dev =>
        (b.isRechargeable dev).bind fun r2 =>
        (battery.collectRechargeable b (pre ++ p :: post)).bind fun rest =>
        .ok (if r2 then dev :: rest else rest) := rfl
    rw [hrec, hd]
    simp only [Outcome.bind_ok]
    rw [hrc]
    simp only [Outcome.bind_ok]
    rw [ih (fun x hx => hpre x (List.mem_cons_of_mem q hx)), Outcome.bind_error]

/-! ## Claims -/

/-- C1: the extension lifecycle-state decoder is total: the codes 1, 2, 3, 4,
5, 6 and 99 map respectively to ENABLED, DISABLED, ERROR, OUT_OF_DATE,
DOWNLOADING, INITIALIZED and UNINSTALLED (a bijection between the code set
and the state set, the listed states being pairwise distinct), and every
other numeric value maps to UNINSTALLED. -/
theorem c1_state_decode_total :
    (([1, 2, 3, 4, 5, 6, 99] : List ℚ).map stateFromNumber =
        [.ENABLED, .DISABLED, .ERROR, .OUT_OF_DATE, .DOWNLOADING,
          .INITIALIZED, .UNINSTALLED] ∧
      List.Nodup [ListExtensionState.ENABLED, .DISABLED, .ERROR, .OUT_OF_DATE,
        .DOWNLOADING, .INITIALIZED, .UNINSTALLED]) ∧
    ∀ q : ℚ, q ∉ ([1, 2, 3, 4, 5, 6, 99] : List ℚ) →
      stateFromNumber q = .UNINSTALLED := by
  refine ⟨⟨?_, by decide⟩, ?_⟩
  · norm_num [stateFromNumber]
  · intro q hq
    simp only [List.mem_cons, List.not_mem_nil, or_false, not_or] at hq
    obtain ⟨h1, h2, h3, h4, h5, h6, h99⟩ := hq
    simp [stateFromNumber, h1, h2, h3, h4, h5, h6, h99]

/-- C1 witness: the non-code value 7 is outside the code set and decodes to
UNINSTALLED. -/
theorem c1_state_decode_total_witness :
    (7 : ℚ) ∉ ([1, 2, 3, 4, 5, 6, 99] : List ℚ) ∧
      stateFromNumber 7 = .UNINSTALLED := by
  have h : (7 : ℚ) ∉ ([1, 2, 3, 4, 5, 6, 99] : List ℚ) := by norm_num
  exact ⟨h, c1_state_decode_total.2 7 h⟩

/-- C2: power-profile decoding is total and asymmetric to encoding: each
canonical string decodes to its enum value, any other string decodes to
Balanced, and each enum value encodes to exactly its canonical string. -/
theorem c2_power_profile_codec :
    (PowerProfile.fromStr "power-saver" = .PowerSaver ∧
      PowerProfile.fromStr "balanced" = .Balanced ∧
      PowerProfile.fromStr "performance" = .Performance) ∧
    (∀ s : String,
        s ∉ (["power-saver", "balanced", "performance"] : List String) →
        PowerProfile.fromStr s = .Balanced) ∧
    (PowerProfile.as_str .PowerSaver = "power-saver" ∧
      PowerProfile.as_str .Balanced = "balanced" ∧
      PowerProfile.as_str .Performance = "performance") := by
  refine ⟨⟨rfl, rfl, rfl⟩, ?_, rfl, rfl, rfl⟩
  intro s hs
  simp only [List.mem_cons, List.not_mem_nil, or_false, not_or] at hs
  obtain ⟨h1, h2, h3⟩ := hs
  simp [PowerProfile.fromStr, h1, h2, h3]

/-- C2 witness: the unrecognized string "powersaver" is outside the canonical
set and decodes to Balanced. -/
theorem c2_power_profile_codec_witness :
    "powersaver" ∉ (["power-saver", "balanced", "performance"] : List String) ∧
      PowerProfile.fromStr "powersaver" = .Balanced := by
  have h : "powersaver" ∉ (["power-saver", "balanced", "performance"] : List String) := by
    decide
  exact ⟨h, c2_power_profile_codec.2.1 "powersaver" h⟩

/-- C3 counterexample: a directory entry that lacks the required name field
makes the decoder abort (panic), which is not a returned DecodeFailure
result. -/
theorem c3_missing_name_counterexample :
    decodeExtensions [("bad@example", [("state", DynValue.num 3)])] = .panic ∧
      (Outcome.panic : Outcome (List ListExtension)) ≠
        .error .decodeFailure := by
  constructor
  · exact decodeExtensions_append_panic [] "bad@example"
      [("state", DynValue.num 3)] [] rfl
  · intro h
    exact Outcome.noConfusion h

/-- C3 (amended): an entry whose version field is absent decodes to a record
with empty-string version and all other fields populated; an entry missing
the required name field makes the whole decoding abort (panic) — no partial
record and no partial listing is produced. -/
theorem c3_version_default_and_all_or_nothing :
    (∀ (uuid nm ds u : String) (q : ℚ),
        decodeExtension uuid [("name", .str nm), ("description", .str ds),
          ("state", .num q), ("url", .str u)] =
        .ok ⟨uuid, nm, ds, stateFromNumber q, "", u⟩) ∧
    (∀ (pre : List (String × Fields)) (uuid : String) (f : Fields)
        (post : List (String × Fields)), List.lookup "name" f = none →
        decodeExtensions (pre ++ (uuid, f) :: post) = .panic) := by
  constructor
  · intro uuid nm ds u q
    rfl
  · exact decodeExtensions_append_panic

/-- C3 witness: a two-entry reply whose first entry is fully populated and
whose second entry lacks the name field decodes to a panic of the whole
listing; a fully populated entry without version decodes with version "". -/
theorem c3_version_default_and_all_or_nothing_witness :
    decodeExtension "good@example" [("name", .str "Good"),
        ("description", .str "A good extension"), ("state", .num 1),
        ("url", .str "https://example.org")] =
      .ok ⟨"good@example", "Good", "A good extension", stateFromNumber 1, "",
        "https://example.org"⟩ ∧
    (List.lookup "name" ([("state", DynValue.num 3)] : Fields) = none ∧
      decodeExtensions [("good@example", [("name", .str "Good"),
        ("description", .str "A good extension"), ("state", .num 1),
        ("url", .str "https://example.org")]),
        ("bad@example", [("state", DynValue.num 3)])] = .panic) :=
  ⟨c3_version_default_and_all_or_nothing.1 "good@example" "Good"
      "A good extension" "https://example.org" 1,
    rfl,
    c3_version_default_and_all_or_nothing.2
      [("good@example", [("name", .str "Good"),
        ("description", .str "A good extension"), ("state", .num 1),
        ("url", .str "https://example.org")])]
      "bad@example" [("state", DynValue.num 3)] [] rfl⟩

/-- C9: a version field that is present but not a string decodes to the empty
string (same fallback as an absent version), while a required field such as
name that is present but not a string makes the decoder panic. -/
theorem c9_ill_typed_version_defaults (uuid nm ds u : String) (q : ℚ)
    (v : DynValue) (hv : tryIntoString v = none) :
    decodeExtension uuid [("name", .str nm), ("description", .str ds),
        ("version", v), ("state", .num q), ("url", .str u)] =
      .ok ⟨uuid, nm, ds, stateFromNumber q, "", u⟩ ∧
    decodeExtension uuid [("name", v), ("description", .str ds),
        ("state", .num q), ("url", .str u)] = .panic := by
  constructor
  · cases v with
    | str s => exact absurd hv (by simp [tryIntoString])
    | num q2 => rfl
    | other => rfl
  · cases v with
    | str s => exact absurd hv (by simp [tryIntoString])
    | num q2 => rfl
    | other => rfl

/-- C9 witness: a numeric version value is not convertible to a string; it
decodes to the empty-string version, and the same value in the name field
panics. -/
theorem c9_ill_typed_version_defaults_witness :
    tryIntoString (DynValue.num 5) = none ∧
    decodeExtension "e@x" [("name", .str "N"), ("description", .str "D"),
        ("version", DynValue.num 5), ("state", .num 2), ("url", .str "U")] =
      .ok ⟨"e@x", "N", "D", stateFromNumber 2, "", "U"⟩ ∧
    decodeExtension "e@x" [("name", DynValue.num 5),
        ("description", .str "D"), ("state", .num 2), ("url", .str "U")] =
      .panic := by
  have h := c9_ill_typed_version_defaults "e@x" "N" "D" "U" 2 (DynValue.num 5) rfl
  exact ⟨rfl, h.1, h.2⟩

/-- C4: for every store state, setting then getting returns the original
typed value, for an unsigned-integer target (nightlight temperature, cursor
size) and a boolean target (nightlight enabled), the store returning the
last string written. -/
theorem c4_set_get_roundtrip (st : Store) (t sz : ℕ) (b : Bool)
    (ht : t < 2 ^ 32) (hsz : sz < 2 ^ 32) :
    (nightlight.set_temperature st t).bind nightlight.get_temperature =
      .ok t ∧
    (nightlight.set_nightlight_active st b).bind
      nightlight.get_nightlight_active = .ok b ∧
    (interface.set_cursor_size st sz).bind interface.get_cursor_size =
      .ok sz := by
  refine ⟨?_, ?_, ?_⟩
  · simp [nightlight.set_temperature, nightlight.get_temperature, dconf.set,
      dconf.get, exceptUnwrap, Outcome.bind_ok, parseU32_natDecimalString ht,
      optUnwrap_some]
  · simp [nightlight.set_nightlight_active, nightlight.get_nightlight_active,
      dconf.set, dconf.get, exceptUnwrap, Outcome.bind_ok,
      parseBool_boolToString, optUnwrap_some]
  · simp [interface.set_cursor_size, interface.get_cursor_size, dconf.set,
      dconf.get, ofResult, Outcome.bind_ok, parseU32_natDecimalString hsz,
      optUnwrap_some]

/-- C4 witness: on the empty store, temperature 3500, enabled flag true and
cursor size 24 all round trip. -/
theorem c4_set_get_roundtrip_witness :
    (3500 < 2 ^ 32 ∧ 24 < 2 ^ 32) ∧
    ((nightlight.set_temperature (fun _ => none) 3500).bind
        nightlight.get_temperature = .ok 3500 ∧
      (nightlight.set_nightlight_active (fun _ => none) true).bind
        nightlight.get_nightlight_active = .ok true ∧
      (interface.set_cursor_size (fun _ => none) 24).bind
        interface.get_cursor_size = .ok 24) :=
  ⟨⟨by norm_num, by norm_num⟩,
    c4_set_get_roundtrip (fun _ => none) 3500 24 true (by norm_num)
      (by norm_num)⟩

/-- A power backend whose system connection fails at transport level. -/
def failingPowerBackend : PowerBackend :=
  ⟨.error .transportUnavailable, .ok (), .ok "balanced"⟩

/-- C5 counterexample: on a transport failure the power façade panics
(aborts the process); it does not return any typed failure value of the
taxonomy. -/
theorem c5_facade_counterexample :
    power.get_power_profile failingPowerBackend = .panic ∧
    ((Outcome.panic : Outcome PowerProfile) ≠ .error .transportUnavailable ∧
      (Outcome.panic : Outcome PowerProfile) ≠ .error .targetNotFound ∧
      (Outcome.panic : Outcome PowerProfile) ≠ .error .decodeFailure ∧
      (Outcome.panic : Outcome PowerProfile) ≠ .error .remoteRejected) := by
  exact ⟨rfl, by decide, by decide, by decide, by decide⟩

/-- A battery backend whose system connection fails at transport level. -/
def failingBatteryBackend : BatteryBackend :=
  ⟨.error .transportUnavailable, .ok (), .ok [], fun p => .ok p,
    fun _ => .ok true⟩

/-- A store with no stored values, for the cursor-size lookup failure. -/
def storeMissingKey : Store := fun _ => none

/-- C5 (amended): error propagation is split by façade: the battery façade
propagates backend failures as typed errors and the interface façade
surfaces a store lookup failure as a typed error, while the power façade
(like the screen, nightlight and extensions façades, which unwrap) panics on
backend failure instead of returning a typed failure value. -/
theorem c5_facade_error_propagation :
    (∀ (pb : PowerBackend) (e : BusError), pb.connection = .error e →
      power.get_power_profile pb = .panic) ∧
    (∀ (bb : BatteryBackend) (e : BusError), bb.connection = .error e →
      battery.get_devices_battery bb = .error e) ∧
    (∀ st : Store, st ("org.gnome.desktop.interface", "cursor-size") = none →
      interface.get_cursor_size st = .error .targetNotFound) := by
  refine ⟨?_, ?_, ?_⟩
  · intro pb e h
    simp [power.get_power_profile, h, unwrapO, Outcome.bind_panic]
  · intro bb e h
    simp [battery.get_devices_battery, h, Outcome.bind_error]
  · intro st h
    simp [interface.get_cursor_size, dconf.get, h, ofResult,
      Outcome.bind_error]

/-- C5 witness: concrete failing backends for all three conjuncts. -/
theorem c5_facade_error_propagation_witness :
    (failingPowerBackend.connection = .error .transportUnavailable ∧
      power.get_power_profile failingPowerBackend = .panic) ∧
    (failingBatteryBackend.connection = .error .transportUnavailable ∧
      battery.get_devices_battery failingBatteryBackend =
        .error .transportUnavailable) ∧
    (storeMissingKey ("org.gnome.desktop.interface", "cursor-size") = none ∧
      interface.get_cursor_size storeMissingKey = .error .targetNotFound) :=
  ⟨⟨rfl, c5_facade_error_propagation.1 failingPowerBackend
      .transportUnavailable rfl⟩,
    ⟨rfl, c5_facade_error_propagation.2.1 failingBatteryBackend
      .transportUnavailable rfl⟩,
    ⟨rfl, c5_facade_error_propagation.2.2 storeMissingKey rfl⟩⟩

/-- An extensions backend whose LaunchExtensionPrefs bus call fails at
transport level while connection and proxy creation succeed. -/
def launchFailBackend : ExtBackend :=
  ⟨.ok (), .ok (), .ok [], fun _ => .error .transportUnavailable,
    fun _ => .ok true, fun _ => .ok true, fun _ => .ok true⟩

/-- C6 counterexample: the LaunchExtensionPrefs bus call itself fails at
transport level, yet the façade returns success — so an error result is not
produced exactly when the bus call fails at transport level. -/
theorem c6_launch_prefs_counterexample :
    launchFailBackend.launchPrefsReply "uuid@x" =
      .error .transportUnavailable ∧
    extensions.open_extension_preferences launchFailBackend "uuid@x" =
      .ok () :=
  ⟨rfl, rfl⟩

/-- An extensions backend whose EnableExtension call replies boolean false. -/
def boolReplyBackend : ExtBackend :=
  ⟨.ok (), .ok (), .ok [], fun _ => .ok (), fun _ => .ok false,
    fun _ => .ok false, fun _ => .ok false⟩

/-- An extensions backend whose EnableExtension call fails at transport
level. -/
def enableFailBackend : ExtBackend :=
  ⟨.ok (), .ok (), .ok [], fun _ => .ok (),
    fun _ => .error .transportUnavailable,
    fun _ => .error .transportUnavailable,
    fun _ => .error .transportUnavailable⟩

/-- C6 (amended): a boolean reply, false included, never produces an error
result; but a transport-level failure does not produce an error result
either: launch-extension-prefs swallows it and returns success, and
enable-extension panics rather than returning an error. -/
theorem c6_boolean_replies_informational :
    (∀ (b : ExtBackend) (uuid : String), b.connection = .ok () →
      b.proxyNew = .ok () →
      extensions.open_extension_preferences b uuid = .ok ()) ∧
    (∀ (b : ExtBackend) (uuid : String) (v : Bool), b.connection = .ok () →
      b.proxyNew = .ok () → b.enableReply uuid = .ok v →
      extensions.enable_extension b uuid = .ok ()) ∧
    (∀ (b : ExtBackend) (uuid : String) (e : BusError),
      b.connection = .ok () → b.proxyNew = .ok () →
      b.enableReply uuid = .error e →
      extensions.enable_extension b uuid = .panic) := by
  refine ⟨?_, ?_, ?_⟩
  · intro b uuid hc hp
    simp [extensions.open_extension_preferences, launch_extension_prefs,
      hc, hp, unwrapO, Outcome.bind_ok]
  · intro b uuid v hc hp he
    simp [extensions.enable_extension, hc, hp, he, unwrapO, Outcome.bind_ok]
  · intro b uuid e hc hp he
    simp [extensions.enable_extension, hc, hp, he, unwrapO, Outcome.bind_ok,
      Outcome.bind_panic]

/-- C6 witness: concrete backends: a swallowed transport failure on launch
prefs, a boolean-false reply treated as success, and a transport failure on
enable producing a panic. -/
theorem c6_boolean_replies_informational_witness :
    extensions.open_extension_preferences launchFailBackend "u@x" = .ok () ∧
    (boolReplyBackend.enableReply "u@x" = .ok false ∧
      extensions.enable_extension boolReplyBackend "u@x" = .ok ()) ∧
    (enableFailBackend.enableReply "u@x" = .error .transportUnavailable ∧
      extensions.enable_extension enableFailBackend "u@x" = .panic) :=
  ⟨c6_boolean_replies_informational.1 launchFailBackend "u@x" rfl rfl,
    ⟨rfl, c6_boolean_replies_informational.2.1 boolReplyBackend "u@x" false
      rfl rfl rfl⟩,
    ⟨rfl, c6_boolean_replies_informational.2.2 enableFailBackend "u@x"
      .transportUnavailable rfl rfl rfl⟩⟩

/-- C7: when every round trip succeeds, battery device enumeration returns
exactly the devices whose rechargeable flag is true, as the order-preserving
filtered subsequence of the enumerated device list. -/
theorem c7_battery_filter (b : BatteryBackend) (paths : List String)
    (f : String → String) (g : String → Bool)
    (hc : b.connection = .ok ()) (hu : b.upowerNew = .ok ())
    (he : b.enumerateDevices = .ok paths)
    (hp : ∀ p ∈ paths, b.deviceProxyNew p = .ok (f p))
    (hr : ∀ p ∈ paths, b.isRechargeable (f p) = .ok (g p)) :
    battery.get_devices_battery b = .ok ((paths.filter g).map f) := by
  simp only [battery.get_devices_battery, hc, hu, he, Outcome.bind_ok]
  exact collectRechargeable_ok b paths f g hp hr

/-- A battery backend enumerating five devices, of which a, c and e are
rechargeable. -/
def fiveDeviceBackend : BatteryBackend :=
  ⟨.ok (), .ok (), .ok ["a", "b", "c", "d", "e"], fun p => .ok p,
    fun p => .ok (p == "a" || p == "c" || p == "e")⟩

/-- C7 witness: 3 of 5 enumerated devices are rechargeable and exactly those
3 are returned, in their original relative order. -/
theorem c7_battery_filter_witness :
    battery.get_devices_battery fiveDeviceBackend = .ok ["a", "c", "e"] := by
  have h := c7_battery_filter fiveDeviceBackend ["a", "b", "c", "d", "e"] id
    (fun p => p == "a" || p == "c" || p == "e") rfl rfl rfl
    (fun p _ => rfl) (fun p _ => rfl)
  exact h.trans (by decide)

/-- C8: for every signed brightness value, set_brightness forwards exactly
that value to the backend Brightness property, with no clamping or
transformation. -/
theorem c8_brightness_forwarded (b : ScreenBackend) (v : ℤ)
    (hc : b.connection = .ok ()) (hp : b.proxyNew = .ok ()) :
    screen.set_brightness b v =
      .ok ⟨"org.gnome.SettingsDaemon.Power.Screen", "Brightness", v⟩ := by
  simp [screen.set_brightness, hc, hp, unwrapO, Outcome.bind_ok]

/-- A screen backend whose connection and proxy creation succeed. -/
def okScreenBackend : ScreenBackend := ⟨.ok (), .ok ()⟩

/-- C8 witness: the out-of-range value -5 is forwarded unchanged. -/
theorem c8_brightness_forwarded_witness :
    okScreenBackend.connection = .ok () ∧
    screen.set_brightness okScreenBackend (-5) =
      .ok ⟨"org.gnome.SettingsDaemon.Power.Screen", "Brightness", -5⟩ :=
  ⟨rfl, c8_brightness_forwarded okScreenBackend (-5) rfl rfl⟩

/-- C10: battery device enumeration is all-or-nothing: if creating the proxy
for, or querying the rechargeable flag of, any single enumerated device
fails, the whole call returns that error (in particular not a partial ok
list). -/
theorem c10_battery_all_or_nothing (b : BatteryBackend)
    (pre post : List String) (p : String) (e : BusError)
    (hc : b.connection = .ok ()) (hu : b.upowerNew = .ok ())
    (he : b.enumerateDevices = .ok (pre ++ p :: post))
    (hpre : ∀ q ∈ pre, ∃ d r, b.deviceProxyNew q = .ok d ∧
      b.isRechargeable d = .ok r)
    (hfail : b.deviceProxyNew p = .error e ∨
      ∃ d, b.deviceProxyNew p = .ok d ∧ b.isRechargeable d = .error e) :
    battery.get_devices_battery b = .error e := by
  simp only [battery.get_devices_battery, hc, hu, he, Outcome.bind_ok]
  exact collectRechargeable_error b pre post p e hpre hfail

/-- A battery backend where querying the rechargeable flag of the second of
three devices fails. -/
def failingDeviceBackend : BatteryBackend :=
  ⟨.ok (), .ok (), .ok ["a", "b", "c"], fun p => .ok p,
    fun d => if d = "b" then .error .targetNotFound else .ok true⟩

/-- C10 witness: the failure on device b makes the whole enumeration return
that error, with no partial list for device a. -/
theorem c10_battery_all_or_nothing_witness :
    battery.get_devices_battery failingDeviceBackend =
      .error .targetNotFound := by
  have h := c10_battery_all_or_nothing failingDeviceBackend ["a"] ["c"] "b"
    .targetNotFound rfl rfl rfl
    (by
      intro q hq
      simp only [List.mem_singleton] at hq
      subst hq
      exact ⟨"a", true, rfl, rfl⟩)
    (Or.inr ⟨"b", rfl, rfl⟩)
  exact h
